import Mathlib

/-
Verification development for the mo package (maybe.go): a generic Maybe
container over Go values. The Go code is generic in a type parameter T and
inspects the runtime kind of values via reflection, so we embed a small
universe of Go types (GoTy) and runtime values (GoVal). A value of a
pointer type carries its element type, which is what the reflection-based
code can observe. Panics (from failed type assertions) are modelled by the
Outcome type. The encoding/json standard library is modelled on the
fragment the claims exercise: integers, booleans and pointer types; other
element types are treated as outside the modelled codec fragment.
-/

namespace mo

/-- Universe of Go element types for the generic parameter T. -/
inductive GoTy : Type
  | tint : GoTy
  | tbool : GoTy
  | tptr (e : GoTy) : GoTy
  | tslice (e : GoTy) : GoTy
  | tmap (k : GoTy) (v : GoTy) : GoTy
  | tfunc : GoTy
  | tiface : GoTy
deriving DecidableEq

/-- Runtime Go values. A non-nil pointer carries its element type and the
value it points to; nilable non-pointer values (slices, maps, funcs) are
modelled by their nil-ness, since no operation of the package inspects
their contents. vnil is the nil interface value. -/
inductive GoVal : Type
  | vint (n : Int) : GoVal
  | vbool (b : Bool) : GoVal
  | vptrNil (e : GoTy) : GoVal
  | vptr (e : GoTy) (x : GoVal) : GoVal
  | vsliceNil (e : GoTy) : GoVal
  | vslice (e : GoTy) : GoVal
  | vmapNil (k : GoTy) (v : GoTy) : GoVal
  | vmapV (k : GoTy) (v : GoTy) : GoVal
  | vfuncNil : GoVal
  | vfuncV : GoVal
  | vnil : GoVal
deriving DecidableEq

/-- Reflection kinds, as returned by reflect.ValueOf(v).Kind(). The nil
interface value has kind Invalid. -/
inductive Kind : Type
  | invalid : Kind
  | kint : Kind
  | kbool : Kind
  | ptr : Kind
  | slice : Kind
  | kmap : Kind
  | kfunc : Kind
deriving DecidableEq

/-- Model of reflect.ValueOf(v).Kind() on the runtime value. -/
def reflectKind : GoVal → Kind
  | .vint _ => .kint
  | .vbool _ => .kbool
  | .vptrNil _ => .ptr
  | .vptr _ _ => .ptr
  | .vsliceNil _ => .slice
  | .vslice _ => .slice
  | .vmapNil _ _ => .kmap
  | .vmapV _ _ => .kmap
  | .vfuncNil => .kfunc
  | .vfuncV => .kfunc
  | .vnil => .invalid

/-- Dynamic type of a runtime value; none for the nil interface value. -/
def dynTy : GoVal → Option GoTy
  | .vint _ => some .tint
  | .vbool _ => some .tbool
  | .vptrNil e => some (.tptr e)
  | .vptr e _ => some (.tptr e)
  | .vsliceNil e => some (.tslice e)
  | .vslice e => some (.tslice e)
  | .vmapNil k v => some (.tmap k v)
  | .vmapV k v => some (.tmap k v)
  | .vfuncNil => some .tfunc
  | .vfuncV => some .tfunc
  | .vnil => none

/-- Model of the Go type assertion x.(T): succeeds on the empty interface
for every non-nil value; on a concrete type it requires the dynamic type
to be exactly T. A type assertion on the nil interface value panics, hence
none. -/
def assertTy (x : GoVal) (T : GoTy) : Option GoVal :=
  match T with
  | .tiface => if x = .vnil then none else some x
  | _ => if dynTy x = some T then some x else none

/-- Zero value of a Go type. -/
def zeroVal : GoTy → GoVal
  | .tint => .vint 0
  | .tbool => .vbool false
  | .tptr e => .vptrNil e
  | .tslice e => .vsliceNil e
  | .tmap k v => .vmapNil k v
  | .tfunc => .vfuncNil
  | .tiface => .vnil

/-- The Maybe struct of maybe.go: a stored value and a validity flag. -/
structure Maybe : Type where
  value : GoVal
  valid : Bool
deriving DecidableEq

/-- HasValue reports whether the Maybe holds a value (maybe.go line 22). -/
def Maybe.HasValue (m : Maybe) : Bool := m.valid

/-- Value returns the stored value, the zero value when absent
(maybe.go line 27). -/
def Maybe.Value (m : Maybe) : GoVal := m.value

/-- ValueOr returns the stored value if valid, else the argument
(maybe.go line 32). -/
def Maybe.ValueOr (m : Maybe) (v : GoVal) : GoVal :=
  if m.valid then m.value else v

/-- Nothing returns the absent Maybe; the value field is the zero value of
T (maybe.go line 78). -/
def Nothing (T : GoTy) : Maybe := ⟨zeroVal T, false⟩

/-- Outcome of a Go computation that may panic. -/
inductive Outcome (α : Type) : Type
  | ok (a : α) : Outcome α
  | panic : Outcome α
deriving DecidableEq

/-- Sequencing of possibly panicking computations. -/
def Outcome.bind {α β : Type} : Outcome α → (α → Outcome β) → Outcome β
  | .ok a, f => f a
  | .panic, _ => .panic

/-- Just (maybe.go line 64): if the runtime kind of v is Ptr, a nil
pointer collapses to Nothing, and a non-nil pointer is dereferenced and
the pointee asserted to T, which panics when the assertion fails; any
other kind is wrapped as valid. -/
def Just (T : GoTy) (v : GoVal) : Outcome Maybe :=
  match v with
  | .vptrNil _ => .ok (Nothing T)
  | .vptr _ x =>
    match assertTy x T with
    | some y => .ok (⟨y, true⟩ : Maybe)
    | none => .panic
  | _ => .ok (⟨v, true⟩ : Maybe)

/-- From (maybe.go line 84): variadic ok flag checked first; then the same
pointer check as Just; otherwise delegates to Just. -/
def From (T : GoTy) (val : GoVal) (ok : List Bool) : Outcome Maybe :=
  if (ok.headD true) = false then .ok (Nothing T)
  else
    match val with
    | .vptrNil _ => .ok (Nothing T)
    | .vptr _ x =>
      match assertTy x T with
      | some y => .ok (⟨y, true⟩ : Maybe)
      | none => .panic
    | _ => Just T val

/-- Map (maybe.go line 103): applies f to the stored value and rebuilds
with Just (hence re-collapses and may panic), else Nothing. B is the
result element type. -/
def Map (B : GoTy) (f : GoVal → GoVal) (m : Maybe) : Outcome Maybe :=
  if m.valid then Just B (f m.value) else .ok (Nothing B)

/-- Fmap (maybe.go line 115): monadic bind, returns f of the stored value
verbatim, else Nothing. -/
def Fmap (B : GoTy) (f : GoVal → Maybe) (m : Maybe) : Maybe :=
  if m.valid then f m.value else Nothing B

/-- Match (maybe.go line 126): the eliminator, calling exactly one of the
two branches. -/
def Match {β : Type} (onNothing : Unit → β) (onJust : GoVal → β) (m : Maybe) : β :=
  if m.valid then onJust m.value else onNothing ()

/-- JSON values of the fragment the claims exercise. -/
inductive Json : Type
  | null : Json
  | num (n : Int) : Json
  | jbool (b : Bool) : Json
deriving DecidableEq

/-- Decode error of the underlying format parser: the target type and the
offending literal. -/
inductive DecErr : Type
  | typeErr (t : GoTy) (j : Json) : DecErr
deriving DecidableEq

instance {ε α : Type} [DecidableEq ε] [DecidableEq α] : DecidableEq (Except ε α) := fun x y =>
  match x, y with
  | .ok a, .ok b =>
    if h : a = b then isTrue (by rw [h]) else isFalse (fun he => h (Except.ok.inj he))
  | .error a, .error b =>
    if h : a = b then isTrue (by rw [h]) else isFalse (fun he => h (Except.error.inj he))
  | .ok _, .error _ => isFalse (fun he => Except.noConfusion he)
  | .error _, .ok _ => isFalse (fun he => Except.noConfusion he)

/-- Model of json.Marshal at element type T on the modelled fragment;
none models a marshalling error or an element type outside the fragment.
A nil pointer encodes as null, a non-nil pointer as its pointee. -/
def jencode : GoTy → GoVal → Option Json
  | .tint, .vint n => some (.num n)
  | .tbool, .vbool b => some (.jbool b)
  | .tptr _, .vptrNil _ => some .null
  | .tptr e, .vptr _ x => jencode e x
  | _, _ => none

/-- Model of json.Unmarshal at element type T on the modelled fragment;
null decodes at a pointer type to the nil pointer, a mismatched literal is
the parser error. -/
def jdecodeE : GoTy → Json → Except DecErr GoVal
  | .tint, .num n => .ok (.vint n)
  | .tbool, .jbool b => .ok (.vbool b)
  | .tptr e, .null => .ok (.vptrNil e)
  | .tptr e, j => (jdecodeE e j).map (.vptr e)
  | t, j => .error (.typeErr t j)

/-- Model of json.Unmarshal(data, addr t) with t a fresh nil pointer of
type star T: null sets t to nil (none), any other literal decodes at T and
boxes the result. -/
def unmarshalPtr (T : GoTy) (data : Json) : Except DecErr (Option GoVal) :=
  if data = Json.null then .ok none
  else (jdecodeE T data).map some

/-- Result of UnmarshalJSON on a receiver: the new receiver state, a
returned decode error (receiver untouched), or a panic. -/
inductive Res : Type
  | ok (m : Maybe) : Res
  | error (e : DecErr) : Res
  | panicked : Res
deriving DecidableEq

/-- UnmarshalJSON (maybe.go line 39): decode into a fresh pointer; on
error return it; when the pointer stayed nil (null input) leave the
receiver unchanged; otherwise assign Just of the decoded value. -/
def UnmarshalJSON (T : GoTy) (m : Maybe) (data : Json) : Res :=
  match unmarshalPtr T data with
  | .error e => .error e
  | .ok none => .ok m
  | .ok (some v) =>
    match Just T v with
    | .ok m2 => .ok m2
    | .panic => .panicked

/-- MarshalJSON (maybe.go line 52): a valid Maybe encodes its value
through a pointer, an invalid one encodes the nil pointer, i.e. null. -/
def MarshalJSON (T : GoTy) (m : Maybe) : Option Json :=
  if m.valid then jencode T m.value else some Json.null

/-- Decoding into a freshly zero-initialized Maybe. -/
def decodeFresh (T : GoTy) (data : Json) : Res :=
  UnmarshalJSON T (Nothing T) data

/-- State of the receiver after an UnmarshalJSON call: the new state on
success, the old state when the call returned an error or panicked before
assigning. -/
def afterUnmarshal (T : GoTy) (m : Maybe) (data : Json) : Maybe :=
  match UnmarshalJSON T m data with
  | .ok m2 => m2
  | _ => m

/-- Just wraps every value of non-pointer runtime kind as valid, unchanged. -/
theorem just_of_nonptr (T : GoTy) (v : GoVal) (h : reflectKind v ≠ Kind.ptr) :
    Just T v = .ok (⟨v, true⟩ : Maybe) := by
  cases v <;> first | rfl | exact absurd rfl h

/-- The modelled encoder emits the null literal only for nil pointers. -/
theorem jencode_ne_null (T : GoTy) (v : GoVal) (h : reflectKind v ≠ Kind.ptr) :
    jencode T v ≠ some Json.null := by
  cases T <;> cases v <;> first | exact absurd rfl h | simp [jencode]

/-- C1 counterexample: decoding null into a previously present container
does not yield Absent; the container stays present with its old value. -/
theorem C1_null_into_present_counterexample :
    UnmarshalJSON .tint (⟨.vint 5, true⟩ : Maybe) Json.null
      = Res.ok (⟨.vint 5, true⟩ : Maybe)
    ∧ UnmarshalJSON .tint (⟨.vint 5, true⟩ : Maybe) Json.null
      ≠ Res.ok (Nothing .tint)
    ∧ Maybe.HasValue (⟨.vint 5, true⟩ : Maybe) = true := by
  decide

/-- C1 (amended): decoding the null literal into a container that is not
previously present, such as a freshly zero-initialized one, yields Absent;
a present container is left as it was. -/
theorem C1_null_decodes_fresh_to_absent (T : GoTy) :
    decodeFresh T Json.null = Res.ok (Nothing T) := rfl

/-- C2: evaluation at the failing input. Constructing Just at a concrete
pointer type with a non-nil pointer panics: the source asserts the
dereferenced pointee back to the pointer type, which can never succeed. -/
theorem C2_just_panics_on_nonnil_pointer :
    Just (.tptr .tint) (.vptr .tint (.vint 42)) = Outcome.panic := by
  decide

/-- C3 counterexample: for the non-nil pointer value at pointer element
type, Present does not produce a container at all (the construction
panics), so HasValue and Value cannot be as claimed. -/
theorem C3_nonnil_pointer_counterexample :
    ¬ ∃ m : Maybe, Just (.tptr .tint) (.vptr .tint (.vint 0)) = .ok m
      ∧ m.HasValue = true ∧ m.Value = .vptr .tint (.vint 0) := by
  intro h
  obtain ⟨m, hm, -, -⟩ := h
  have h0 : Just (.tptr .tint) (.vptr .tint (.vint 0)) = Outcome.panic := by decide
  rw [h0] at hm
  exact Outcome.noConfusion hm

/-- C3 (amended): for every value v whose runtime kind is not a pointer,
Present yields a container with HasValue true and Value equal to the v
passed in. -/
theorem C3_present_keeps_value (T : GoTy) (v : GoVal)
    (h : reflectKind v ≠ Kind.ptr) :
    ∃ m : Maybe, Just T v = .ok m ∧ m.HasValue = true ∧ m.Value = v :=
  ⟨⟨v, true⟩, just_of_nonptr T v h, rfl, rfl⟩

theorem C3_present_keeps_value_witness :
    ∃ m : Maybe, Just .tint (.vint 5) = .ok m
      ∧ m.HasValue = true ∧ m.Value = .vint 5 :=
  C3_present_keeps_value .tint (.vint 5) (by decide)

/-- C4: constructing with the nil pointer of a pointer element type, via
Just or via From with the flag absent or true, yields exactly Absent with
presence flag false and the zero stored value. -/
theorem C4_nil_pointer_collapses (e : GoTy) :
    Just (.tptr e) (.vptrNil e) = .ok (Nothing (.tptr e))
    ∧ From (.tptr e) (.vptrNil e) [] = .ok (Nothing (.tptr e))
    ∧ From (.tptr e) (.vptrNil e) [true] = .ok (Nothing (.tptr e))
    ∧ (Nothing (.tptr e)).HasValue = false
    ∧ (Nothing (.tptr e)).Value = zeroVal (.tptr e) :=
  ⟨rfl, rfl, rfl, rfl, rfl⟩

/-- C5: From with an explicitly false flag returns Absent for every value
and element type, and the flag is checked before the pointer inspection:
the same non-nil pointer that makes Just panic still yields Absent. -/
theorem C5_false_flag_short_circuits :
    (∀ (T : GoTy) (v : GoVal) (rest : List Bool),
      From T v (false :: rest) = .ok (Nothing T))
    ∧ From (.tptr .tint) (.vptr .tint (.vint 0)) [false]
        = .ok (Nothing (.tptr .tint))
    ∧ Just (.tptr .tint) (.vptr .tint (.vint 0)) = Outcome.panic := by
  refine ⟨?_, by decide, by decide⟩
  intro T v rest
  simp [From]

/-- C6 counterexample: the non-nil pointer value at pointer element type
is not the null form and its own codec round-trip is lossless, yet
Present of it yields no container at all (the construction panics), so
encoding Present of it cannot round-trip. -/
theorem C6_pointer_roundtrip_counterexample :
    jencode (.tptr .tint) (.vptr .tint (.vint 5)) = some (Json.num 5)
    ∧ jdecodeE (.tptr .tint) (Json.num 5) = .ok (.vptr .tint (.vint 5))
    ∧ ¬ ∃ m : Maybe, Just (.tptr .tint) (.vptr .tint (.vint 5)) = .ok m := by
  refine ⟨by decide, by decide, ?_⟩
  rintro ⟨m, hm⟩
  have h0 : Just (.tptr .tint) (.vptr .tint (.vint 5)) = Outcome.panic := by
    decide
  rw [h0] at hm
  exact Outcome.noConfusion hm

/-- C6 (amended): round-trip. Encoding Absent gives null and decoding null into a
fresh container gives Absent back; for every non-pointer-kind value whose
own codec round-trip is lossless, Present encodes to the value literal and
decodes back to Present of the same value; Present of a nil pointer is
Absent and hence round-trips to Absent. -/
theorem C6_roundtrip :
    (∀ T : GoTy, MarshalJSON T (Nothing T) = some Json.null
      ∧ decodeFresh T Json.null = Res.ok (Nothing T))
    ∧ (∀ (T : GoTy) (v : GoVal) (j : Json), reflectKind v ≠ Kind.ptr →
        jencode T v = some j → jdecodeE T j = .ok v →
        Just T v = .ok (⟨v, true⟩ : Maybe)
        ∧ MarshalJSON T (⟨v, true⟩ : Maybe) = some j
        ∧ decodeFresh T j = Res.ok (⟨v, true⟩ : Maybe))
    ∧ (∀ e : GoTy, Just (.tptr e) (.vptrNil e) = .ok (Nothing (.tptr e))
        ∧ decodeFresh (.tptr e) Json.null = Res.ok (Nothing (.tptr e))) := by
  refine ⟨fun T => ⟨rfl, rfl⟩, ?_, fun e => ⟨rfl, rfl⟩⟩
  intro T v j hptr henc hdec
  have hjne : j ≠ Json.null := by
    intro hj
    rw [hj] at henc
    exact jencode_ne_null T v hptr henc
  refine ⟨just_of_nonptr T v hptr, ?_, ?_⟩
  · simpa [MarshalJSON] using henc
  · simp [decodeFresh, UnmarshalJSON, unmarshalPtr, hjne, hdec, Except.map,
      just_of_nonptr T v hptr]

theorem C6_roundtrip_witness :
    Just .tint (.vint 5) = .ok (⟨.vint 5, true⟩ : Maybe)
    ∧ MarshalJSON .tint (⟨.vint 5, true⟩ : Maybe) = some (Json.num 5)
    ∧ decodeFresh .tint (Json.num 5) = Res.ok (⟨.vint 5, true⟩ : Maybe) :=
  C6_roundtrip.2.1 .tint (.vint 5) (Json.num 5) (by decide) (by decide)
    (by decide)

/-- C7: on a literal that is malformed for the inner type, UnmarshalJSON
returns exactly the underlying parser error and the receiver is left
unmodified. -/
theorem C7_decode_error_atomic (T : GoTy) (m : Maybe) (j : Json) (e : DecErr)
    (hne : j ≠ Json.null) (hdec : jdecodeE T j = .error e) :
    UnmarshalJSON T m j = Res.error e ∧ afterUnmarshal T m j = m := by
  have h1 : unmarshalPtr T j = .error e := by
    simp [unmarshalPtr, hne, hdec, Except.map]
  constructor <;> simp [UnmarshalJSON, afterUnmarshal, h1]

theorem C7_decode_error_atomic_witness :
    UnmarshalJSON .tint (⟨.vint 7, true⟩ : Maybe) (Json.jbool true)
      = Res.error (.typeErr .tint (.jbool true))
    ∧ afterUnmarshal .tint (⟨.vint 7, true⟩ : Maybe) (Json.jbool true)
      = (⟨.vint 7, true⟩ : Maybe) :=
  C7_decode_error_atomic .tint ⟨.vint 7, true⟩ (Json.jbool true)
    (.typeErr .tint (.jbool true)) (by decide) (by decide)

/-- C8 counterexample: a present container wrapping a nil pointer is
reachable through the public constructor at the interface element type (a
pointer to a nil pointer is dereferenced once), and Map of the identity
collapses it to Absent, so the functor identity law fails on it. -/
theorem C8_map_id_counterexample :
    Just .tiface (.vptr (.tptr .tint) (.vptrNil .tint))
      = .ok (⟨.vptrNil .tint, true⟩ : Maybe)
    ∧ Map .tiface id (⟨.vptrNil .tint, true⟩ : Maybe)
      ≠ .ok (⟨.vptrNil .tint, true⟩ : Maybe) := by
  decide

/-- C8 (amended): the functor identity law holds for every container that
is absent with the zero stored value or present with a stored value of
non-pointer runtime kind; the composition law holds for every container
provided the first function produces a non-pointer-kind value on the
present stored value. -/
theorem C8_functor_laws :
    (∀ (A : GoTy) (m : Maybe), (m.valid = false → m.value = zeroVal A) →
      (m.valid = true → reflectKind m.value ≠ Kind.ptr) →
      Map A id m = .ok m)
    ∧ (∀ (B C : GoTy) (f g : GoVal → GoVal) (m : Maybe),
      (m.valid = true → reflectKind (f m.value) ≠ Kind.ptr) →
      Outcome.bind (Map B f m) (Map C g) = Map C (g ∘ f) m) := by
  constructor
  · intro A m h0 h1
    obtain ⟨v, b⟩ := m
    cases b
    · have hv : v = zeroVal A := h0 rfl
      subst hv
      simp [Map, Nothing]
    · have hk : reflectKind v ≠ Kind.ptr := h1 rfl
      simp [Map, just_of_nonptr A v hk]
  · intro B C f g m h
    obtain ⟨v, b⟩ := m
    cases b
    · simp [Map, Outcome.bind, Nothing]
    · have hk : reflectKind (f v) ≠ Kind.ptr := h rfl
      simp [Map, Outcome.bind, just_of_nonptr B (f v) hk, Function.comp]

theorem C8_functor_laws_witness :
    Map .tint id (⟨.vint 3, true⟩ : Maybe) = .ok (⟨.vint 3, true⟩ : Maybe)
    ∧ Outcome.bind
        (Map .tint (fun x => x) (⟨.vint 3, true⟩ : Maybe))
        (Map .tint (fun x => x))
      = Map .tint ((fun x => x) ∘ (fun x => x)) (⟨.vint 3, true⟩ : Maybe) :=
  ⟨C8_functor_laws.1 .tint ⟨.vint 3, true⟩ (by decide) (by decide),
   C8_functor_laws.2 .tint .tint (fun x => x) (fun x => x) ⟨.vint 3, true⟩
     (by decide)⟩

/-- C9: decoding the null literal succeeds and leaves the receiver exactly
as it was, both its stored value and its presence flag, so a previously
present container stays present. -/
theorem C9_null_decode_is_noop (T : GoTy) (m : Maybe) :
    UnmarshalJSON T m Json.null = Res.ok m
    ∧ afterUnmarshal T m Json.null = m
    ∧ (afterUnmarshal T m Json.null).HasValue = m.HasValue
    ∧ (afterUnmarshal T m Json.null).Value = m.Value :=
  ⟨rfl, rfl, rfl, rfl⟩

/-- C10: the collapsing rule fires only on pointer kind. Constructing with
a nil slice, nil map, nil function or the nil interface value, via Just or
via From with the flag absent or true, yields a present container wrapping
that nil value. -/
theorem C10_other_nil_kinds_wrap (e k v : GoTy) :
    (Just (.tslice e) (.vsliceNil e) = .ok (⟨.vsliceNil e, true⟩ : Maybe)
      ∧ From (.tslice e) (.vsliceNil e) [] = .ok (⟨.vsliceNil e, true⟩ : Maybe)
      ∧ From (.tslice e) (.vsliceNil e) [true]
          = .ok (⟨.vsliceNil e, true⟩ : Maybe))
    ∧ (Just (.tmap k v) (.vmapNil k v) = .ok (⟨.vmapNil k v, true⟩ : Maybe)
      ∧ From (.tmap k v) (.vmapNil k v) [] = .ok (⟨.vmapNil k v, true⟩ : Maybe)
      ∧ From (.tmap k v) (.vmapNil k v) [true]
          = .ok (⟨.vmapNil k v, true⟩ : Maybe))
    ∧ (Just .tfunc .vfuncNil = .ok (⟨.vfuncNil, true⟩ : Maybe)
      ∧ From .tfunc .vfuncNil [] = .ok (⟨.vfuncNil, true⟩ : Maybe)
      ∧ From .tfunc .vfuncNil [true] = .ok (⟨.vfuncNil, true⟩ : Maybe))
    ∧ (Just .tiface .vnil = .ok (⟨.vnil, true⟩ : Maybe)
      ∧ From .tiface .vnil [] = .ok (⟨.vnil, true⟩ : Maybe)
      ∧ From .tiface .vnil [true] = .ok (⟨.vnil, true⟩ : Maybe)) :=
  ⟨⟨rfl, rfl, rfl⟩, ⟨rfl, rfl, rfl⟩, ⟨rfl, rfl, rfl⟩, ⟨rfl, rfl, rfl⟩⟩

end mo
